import Mathlib

/-!
Shallow embedding of `src/scripts/clinvar_to_csv.py` (ClinVar TSV/VCF → CSV
converter) and verification of its specification.

String cells read from a pandas table are modelled as `Option String`, where
`none` is the NaN sentinel pandas uses for missing cells.
-/

namespace ClinvarToCsv

/-! ### Character/string helpers modelling the Python primitives -/

/-- The delimiter class of `re.split(r"[|/,;]", s)`. -/
def isDelim (c : Char) : Bool :=
  c = '|' || c = '/' || c = ',' || c = ';'

/-- `re.split(r"[|/,;]", s)` over the character list: split at every delimiter
occurrence, keeping empty segments. -/
def splitChars : List Char → List (List Char)
  | [] => [[]]
  | c :: rest =>
    match splitChars rest with
    | [] => [[]]
    | h :: t => if isDelim c then [] :: h :: t else (c :: h) :: t

/-- The ASCII whitespace set of Python `str.strip()`. -/
def pyIsSpace (c : Char) : Bool :=
  c = ' ' || c = '\t' || c = '\n' || c = '\r' || c = '\x0b' || c = '\x0c'

/-- Python `s.strip()`. -/
def trimChars (l : List Char) : List Char :=
  ((l.dropWhile pyIsSpace).reverse.dropWhile pyIsSpace).reverse

/-- `p.strip().lower().replace(" ", "_")`: the normalized key built for each
candidate term in `normalize_clinsig`. -/
def normKey (l : List Char) : String :=
  ⟨((trimChars l).map Char.toLower).map (fun c => if c = ' ' then '_' else c)⟩

/-- Python `str.capitalize()` on a string: first character uppercased, the
rest lowercased. -/
def capitalizeStr (s : String) : String :=
  match s.data with
  | [] => ""
  | c :: rest => ⟨Char.toUpper c :: rest.map Char.toLower⟩

/-- Python `s.lower()` (ASCII lowering over the characters). -/
def lowerStr (s : String) : String :=
  ⟨s.data.map Char.toLower⟩

/-- Substring containment over character lists: the pattern is a prefix of
some suffix. -/
def containsSub (pat : List Char) : List Char → Bool
  | [] => pat.isPrefixOf []
  | c :: rest => pat.isPrefixOf (c :: rest) || containsSub pat rest

/-- Python `pat in s` (substring containment). -/
def strContains (s pat : String) : Bool :=
  containsSub pat.data s.data

/-! ### The significance normalizer (`normalize_clinsig`) -/

/-- `KEEP_MAP`: map from ClinVar terms to simplified labels. -/
def KEEP_MAP : List (String × String) :=
  [("pathogenic", "Pathogenic"), ("likely_pathogenic", "Pathogenic"),
   ("benign", "Benign"), ("likely_benign", "Benign")]

/-- The scanning loop of `normalize_clinsig`: for each part build the key,
and when the key is in `KEEP_MAP`, return the mapped label if
`collapse_likely`; otherwise return `key.capitalize()` only for the plain
keys `pathogenic`/`benign`, and keep scanning for every other key. -/
def scanParts (collapseLikely : Bool) : List (List Char) → Option String
  | [] => none
  | p :: rest =>
    match KEEP_MAP.lookup (normKey p) with
    | some v =>
      if collapseLikely then some v
      else if normKey p = "pathogenic" || normKey p = "benign" then
        some (capitalizeStr (normKey p))
      else scanParts collapseLikely rest
    | none => scanParts collapseLikely rest

/-- `normalize_clinsig(s, collapse_likely)`. `none` models both a Python
`None` argument and the float-NaN sentinel of a missing table cell; both are
caught by the guard at the top of the function. -/
def normalize_clinsig (s : Option String) (collapseLikely : Bool := true) :
    Option String :=
  match s with
  | none => none
  | some str => scanParts collapseLikely (splitChars str.data)

/-- The fixed lookup table of spec §4.1 step 4, written from the spec's
words: `pathogenic→Pathogenic, likely_pathogenic→Pathogenic, benign→Benign,
likely_benign→Benign`. -/
def specLookup (key : String) : Option String :=
  if key = "pathogenic" || key = "likely_pathogenic" then some "Pathogenic"
  else if key = "benign" || key = "likely_benign" then some "Benign"
  else none

/-- Modelled from the spec (§4.1, reference algorithm for the default
collapsing mode): absent input yields absent; otherwise split on the four
delimiters, normalize each term, and return the table entry of the first
matching term, absent when no term matches. -/
def normalizeSpecRef (s : Option String) : Option String :=
  match s with
  | none => none
  | some str => ((splitChars str.data).map normKey).findSome? specLookup

example : normalize_clinsig (some "Pathogenic") = some "Pathogenic" := by decide
example : normalize_clinsig (some "Benign|Pathogenic") = some "Benign" := by decide
example : normalize_clinsig (some "Likely_Pathogenic/other") = some "Pathogenic" := by decide
example : normalize_clinsig (some "Uncertain significance") = none := by decide
example : normalize_clinsig (some "likely_pathogenic") false = none := by decide

/-! ### The table converter (`tsv_to_csv`) -/

/-- A pandas DataFrame read with `sep="\t", dtype=str`: a header of column
names and rows of string cells, `none` being the NaN of a missing cell. -/
structure Table where
  header : List String
  rows : List (List (Option String))

/-- The dict `cols = {c.lower(): c for c in df.columns}`: a Python dict
comprehension keeps the LAST column whose lowercasing equals the key. -/
def colsLookup (header : List String) (key : String) : Option String :=
  (header.filter (fun c => lowerStr c = key)).getLast?

/-- `pick(*cands)`: try the candidates in order and return the original-case
column name of the first whose lowercase form is a key of `cols`. -/
def pick (header : List String) : List String → Option String
  | [] => none
  | c :: rest =>
    match colsLookup header (lowerStr c) with
    | some col => some col
    | none => pick header rest

def col_chrom (h : List String) : Option String :=
  pick h ["chromosome", "chrom", "chr"]
def col_pos (h : List String) : Option String :=
  pick h ["start", "pos", "position"]
def col_ref (h : List String) : Option String :=
  pick h ["referenceallele", "ref"]
def col_alt (h : List String) : Option String :=
  pick h ["alternateallele", "alt", "altallele"]
def col_gene (h : List String) : Option String :=
  pick h ["genesymbol", "gene_symbol", "gene", "symbol"]
def col_sig (h : List String) : Option String :=
  pick h ["clinicalsignificance", "clinsig", "clinical_significance"]
def col_hgvs_p (h : List String) : Option String :=
  pick h ["hgvsp", "hgvs_p", "protein_change", "protein_hgvs"]

/-- The `all([col_chrom, col_pos, col_ref, col_alt, col_gene, col_sig])`
gate, bundling the six resolved names when all are present. -/
def resolveCols (h : List String) :
    Option (String × String × String × String × String × String) :=
  match col_chrom h, col_pos h, col_ref h, col_alt h, col_gene h, col_sig h with
  | some cc, some cp, some cr, some ca, some cg, some cs =>
    some (cc, cp, cr, ca, cg, cs)
  | _, _, _, _, _, _ => none

/-- `df[col][i]`: the cell of a row under a column name (first matching
header position; `none` when the column or the cell is missing). -/
def getCell (header : List String) (row : List (Option String))
    (col : String) : Option String :=
  match header.indexOf? col with
  | some i => (row.get? i).join
  | none => none

/-- Outcome of `pd.to_numeric(cell, errors="coerce")` followed by
`astype("Int64")` for one position cell: `na` when the coercion yields NaN
(the row is later removed by `dropna`), `val n` when the cell is an
integral numeric, `castError` when the cell is a non-integral numeric —
`astype("Int64")` raises TypeError ("cannot safely cast non-equivalent
float64 to int64") and the whole conversion aborts. -/
inductive PosCast
  | na
  | val (n : Int)
  | castError
deriving DecidableEq, Repr

/-- Value of a run of decimal digits. -/
def digitsVal (ds : List Char) : Nat :=
  ds.foldl (fun a c => a * 10 + (c.toNat - 48)) 0

/-- The optional exponent tail of a numeric literal (`e`/`E`, optional
sign, digits): adds the exponent to `e`, `none` when the tail is
malformed. -/
def parseExpPart (m : Nat) (e : Int) : List Char → Option (Nat × Int)
  | [] => some (m, e)
  | c :: rest =>
    if c = 'e' || c = 'E' then
      match rest with
      | '+' :: ds =>
        if ds ≠ [] ∧ ds.all Char.isDigit then some (m, e + digitsVal ds)
        else none
      | '-' :: ds =>
        if ds ≠ [] ∧ ds.all Char.isDigit then some (m, e - digitsVal ds)
        else none
      | ds =>
        if ds ≠ [] ∧ ds.all Char.isDigit then some (m, e + digitsVal ds)
        else none
    else none

/-- The unsigned body of a numeric literal: digits with an optional decimal
point and optional exponent, as an exact pair (mantissa digits, decimal
exponent), so "12.0" is (120, -1) and "1e3" is (1, 3); `none` when the body
is not numeric. -/
def parseNumBody (l : List Char) : Option (Nat × Int) :=
  let ip := l.takeWhile Char.isDigit
  let r1 := l.dropWhile Char.isDigit
  match r1 with
  | '.' :: r2 =>
    let fp := r2.takeWhile Char.isDigit
    let r3 := r2.dropWhile Char.isDigit
    if ip = [] ∧ fp = [] then none
    else parseExpPart (digitsVal (ip ++ fp)) (-(fp.length : Int)) r3
  | _ =>
    if ip = [] then none
    else parseExpPart (digitsVal ip) 0 r1

/-- Cast of a signed numeric body: an exactly integral value (mantissa
times a power of ten, or evenly divisible by one) becomes `val`, a
non-integral numeric raises, numeric values being modelled as exact
decimals (float64 rounding of huge literals is out of scope — positions
are small). -/
def castBody (sgn : Int) (body : List Char) : PosCast :=
  match parseNumBody body with
  | none => PosCast.na
  | some (m, e) =>
    if 0 ≤ e then PosCast.val (sgn * (m : Int) * (10 : Int) ^ e.toNat)
    else if m % 10 ^ (-e).toNat = 0 then
      PosCast.val (sgn * ((m / 10 ^ (-e).toNat : Nat) : Int))
    else PosCast.castError

/-- `pd.to_numeric(s, errors="coerce").astype("Int64")` on one string cell:
surrounding whitespace and an optional sign, then a numeric body. -/
def toNumericCast (s : String) : PosCast :=
  match trimChars s.data with
  | '-' :: r => castBody (-1) r
  | '+' :: r => castBody 1 r
  | r => castBody 1 r

/-- The position pipeline on one cell: a missing cell is NaN and stays NA
through the coercion and the nullable-integer cast. -/
def posCastCell : Option String → PosCast
  | none => PosCast.na
  | some s => toNumericCast s

example : posCastCell (some "12345") = PosCast.val 12345 := by decide
example : posCastCell (some "-5") = PosCast.val (-5) := by decide
example : posCastCell (some "12.0") = PosCast.val 12 := by decide
example : posCastCell (some "1e3") = PosCast.val 1000 := by decide
example : posCastCell (some "2.5") = PosCast.castError := by decide
example : posCastCell (some "abc") = PosCast.na := by decide
example : posCastCell none = PosCast.na := by decide

/-- `Series.astype(str)`: a present string cell is unchanged, and pandas
renders a missing (NaN) cell as the string `"nan"`. -/
def astype_str : Option String → String
  | none => "nan"
  | some s => s

/-- One row of the output CSV, schema
`chrom,pos,ref,alt,gene_symbol,clinical_significance,hgvs_p`. -/
structure OutRow where
  chrom : String
  pos : Int
  ref : String
  alt : String
  gene_symbol : String
  clinical_significance : String
  hgvs_p : String
deriving DecidableEq, Repr

/-- Per-row outcome of the table pipeline: the significance filter
(`isin(["Pathogenic","Benign"])` over the applied normalizer), then the
`out` frame construction and `dropna(subset=["pos"])`. `chp` is the
optionally resolved hgvs_p column; when it is `none` the field is the
broadcast empty string. -/
def rowOut (h : List String) (cc cp cr ca cg cs : String)
    (chp : Option String) (row : List (Option String)) : Option OutRow :=
  match normalize_clinsig (getCell h row cs) true with
  | some lbl =>
    if lbl ∈ (["Pathogenic", "Benign"] : List String) then
      match posCastCell (getCell h row cp) with
      | PosCast.val n =>
        some { chrom := astype_str (getCell h row cc)
               pos := n
               ref := astype_str (getCell h row cr)
               alt := astype_str (getCell h row ca)
               gene_symbol := astype_str (getCell h row cg)
               clinical_significance := lbl
               hgvs_p :=
                 match chp with
                 | some ch => astype_str (getCell h row ch)
                 | none => "" }
      | _ => none
    else none
  | none => none

inductive ConvErr
  | missingColumns
  | castTypeError
  | unsupportedInput
deriving DecidableEq, Repr

/-- The `isin(["Pathogenic","Benign"])` filter on the applied normalizer
column: the rows the significance filter keeps. -/
def sigKeep (h : List String) (cs : String) (row : List (Option String)) :
    Bool :=
  match normalize_clinsig (getCell h row cs) true with
  | some lbl => lbl ∈ (["Pathogenic", "Benign"] : List String)
  | none => false

/-- Whether a row's position cell makes `astype("Int64")` raise. -/
def castErrCell (h : List String) (cp : String) (row : List (Option String)) :
    Bool :=
  match posCastCell (getCell h row cp) with
  | PosCast.castError => true
  | _ => false

/-- `tsv_to_csv`: resolve the columns, fail with the missing-columns
`ValueError` when a required one is absent; the `out` frame construction
then runs the position cast over the rows the significance filter kept,
raising TypeError when any of those cells is a non-integral numeric, else
producing the filtered rows in input order. -/
def tsv_to_csv (t : Table) : Except ConvErr (List OutRow) :=
  match resolveCols t.header with
  | some (cc, cp, cr, ca, cg, cs) =>
    if (t.rows.filter (sigKeep t.header cs)).any (castErrCell t.header cp) then
      Except.error ConvErr.castTypeError
    else
      Except.ok (t.rows.filterMap (rowOut t.header cc cp cr ca cg cs (col_hgvs_p t.header)))
  | none => Except.error ConvErr.missingColumns

example : tsv_to_csv ⟨["chrom", "pos", "ref", "alt", "gene", "clinsig"],
    [[some "1", some "12.0", some "A", some "G", some "X", some "Benign"]]⟩ =
  Except.ok [⟨"1", 12, "A", "G", "X", "Benign", ""⟩] := by rfl

example : tsv_to_csv ⟨["chrom", "pos", "ref", "alt", "gene", "clinsig"],
    [[some "1", some "2.5", some "A", some "G", some "X", some "Benign"]]⟩ =
  Except.error ConvErr.castTypeError := by rfl

example : tsv_to_csv ⟨["chrom", "pos", "ref", "alt", "gene", "clinsig"],
    [[some "1", some "2.5", some "A", some "G", some "X", some "Uncertain"]]⟩ =
  Except.ok [] := by rfl

/-- The header line `out.to_csv` writes. -/
def csvHeader : String :=
  "chrom,pos,ref,alt,gene_symbol,clinical_significance,hgvs_p"

/-- One serialized CSV data line (no index column). -/
def serializeRow (r : OutRow) : String :=
  r.chrom ++ "," ++ toString r.pos ++ "," ++ r.ref ++ "," ++ r.alt ++ "," ++
    r.gene_symbol ++ "," ++ r.clinical_significance ++ "," ++ r.hgvs_p

/-- The file `tsv_to_csv` writes: `out.to_csv(out_csv, index=False)` always
runs once the columns resolved, so even zero rows give a header-only file. -/
def tsvWrite (t : Table) : Except ConvErr (List String) :=
  (tsv_to_csv t).map (fun rows => csvHeader :: rows.map serializeRow)

/-! ### The call-file converter (`vcf_to_csv`) -/

/-- One cyvcf2 record: CHROM, POS, REF, the ALT list (`none` when cyvcf2
reports no alternates), and the INFO key/value mapping. -/
structure VcfRecord where
  chrom : String
  pos : Int
  ref : String
  alt : Option (List String)
  info : List (String × String)

/-- Python truthiness filter on an optional string: `None` and the empty
string are falsy. -/
def truthy : Option String → Option String
  | none => none
  | some v => if v = "" then none else some v

/-- `info.get("CLNSIG") or info.get("CLNSIGCONF") or ""`. -/
def sigRaw (info : List (String × String)) : String :=
  match truthy (info.lookup "CLNSIG") with
  | some v => v
  | none =>
    match truthy (info.lookup "CLNSIGCONF") with
    | some v => v
    | none => ""

/-- Part of a string before the first occurrence of a character:
`s.split(c)[0]`. -/
def beforeChar (c : Char) (s : String) : String :=
  ⟨s.data.takeWhile (fun d => d ≠ c)⟩

/-- Gene extraction: when `GENEINFO` is present and truthy, the part of its
first pipe-delimited segment before the first colon; the initial `""`
otherwise. -/
def geneOf (info : List (String × String)) : String :=
  match truthy (info.lookup "GENEINFO") with
  | some gi => beforeChar ':' (beforeChar '|' gi)
  | none => ""

/-- The `for key in ["HGVSP","HGVSp","HGVS_P","HGVS"]` scan: first key
present with a truthy value, the initial `""` when none is. -/
def hgvsScan (info : List (String × String)) : List String → String
  | [] => ""
  | k :: rest =>
    match info.lookup k with
    | some v => if v = "" then hgvsScan info rest else v
    | none => hgvsScan info rest

def hgvsOf (info : List (String × String)) : String :=
  hgvsScan info ["HGVSP", "HGVSp", "HGVS_P", "HGVS"]

/-- `rec.ALT or []`. -/
def effAlts (r : VcfRecord) : List String :=
  match r.alt with
  | some l => l
  | none => []

/-- The loop body for one record: skip it unless its normalized label is
Pathogenic/Benign, else append one row per alternate allele. -/
def processRecord (r : VcfRecord) : List OutRow :=
  match normalize_clinsig (some (sigRaw r.info)) true with
  | some lbl =>
    if lbl ∈ (["Pathogenic", "Benign"] : List String) then
      (effAlts r).map (fun a =>
        { chrom := r.chrom, pos := r.pos, ref := r.ref, alt := a
          gene_symbol := geneOf r.info, clinical_significance := lbl
          hgvs_p := hgvsOf r.info })
    else []
  | none => []

/-- `vcf_to_csv`: the accumulated `rows` over all records, in record order. -/
def vcf_to_csv (recs : List VcfRecord) : List OutRow :=
  (recs.map processRecord).flatten

/-- The file `vcf_to_csv` writes: `if not out.empty: out.to_csv(...)` —
nothing at all when zero rows qualified. -/
def vcfWrite (recs : List VcfRecord) : Option (List String) :=
  let rows := vcf_to_csv recs
  if rows.isEmpty then none else some (csvHeader :: rows.map serializeRow)

/-! ### The dispatcher (`main`) -/

inductive Route
  | table
  | callFile
deriving DecidableEq, Repr

/-- The lowered compound suffix built by joining the path's suffixes and
lowercasing the result. -/
def sfxOf (suffixes : List String) : String :=
  lowerStr ⟨(suffixes.map String.data).flatten⟩

/-- The routing of `main`: the TSV/TXT containment check on the compound
suffix first, the VCF/GZ containment check second, else the unknown-input
`ValueError`. -/
def mainRoute (suffixes : List String) : Except ConvErr Route :=
  let sfx := sfxOf suffixes
  if strContains sfx ".tsv" || strContains sfx ".txt" then
    Except.ok Route.table
  else if strContains sfx ".vcf" || strContains sfx ".vcf.gz" || strContains sfx ".gz" then
    Except.ok Route.callFile
  else
    Except.error ConvErr.unsupportedInput

example : mainRoute [".vcf", ".gz"] = Except.ok Route.callFile := by rfl
example : mainRoute [".txt", ".gz"] = Except.ok Route.table := by rfl
example : mainRoute [".csv"] = Except.error ConvErr.unsupportedInput := by rfl

/-! ### Theorems -/

/-- The code's `KEEP_MAP` lookup agrees with the spec's fixed table on
every key. -/
theorem keepMap_lookup_eq_specLookup (k : String) :
    KEEP_MAP.lookup k = specLookup k := by
  by_cases h1 : k = "pathogenic"
  · subst h1; rfl
  by_cases h2 : k = "likely_pathogenic"
  · subst h2; rfl
  by_cases h3 : k = "benign"
  · subst h3; rfl
  by_cases h4 : k = "likely_benign"
  · subst h4; rfl
  have e1 : (k == "pathogenic") = false := by simp [h1]
  have e2 : (k == "likely_pathogenic") = false := by simp [h2]
  have e3 : (k == "benign") = false := by simp [h3]
  have e4 : (k == "likely_benign") = false := by simp [h4]
  simp [KEEP_MAP, List.lookup, specLookup, h1, h2, h3, h4, e1, e2, e3, e4]

/-- In the collapsing mode the scan loop is a first-match search over the
normalized keys. -/
theorem scanParts_true_eq_findSome (l : List (List Char)) :
    scanParts true l = (l.map normKey).findSome? specLookup := by
  induction l with
  | nil => rfl
  | cons p rest ih =>
    simp only [scanParts, List.map_cons, List.findSome?_cons,
      keepMap_lookup_eq_specLookup, ih]
    cases specLookup (normKey p) <;> simp

/-- C2: with `collapse_likely` left at its default (true), `normalize_clinsig`
equals the specified reference algorithm — absent input yields absent,
otherwise the input is split on `|`, `/`, `,`, `;`, each term is trimmed,
lowercased and space-to-underscored, the first matching key wins
("Benign|Pathogenic" yields Benign, "Likely_Pathogenic/other" yields
Pathogenic, "Uncertain significance" yields absent), and no match yields
absent. -/
theorem C2_normalize_clinsig_matches_spec :
    (∀ s : Option String, normalize_clinsig s true = normalizeSpecRef s) ∧
    normalize_clinsig (some "Benign|Pathogenic") true = some "Benign" ∧
    normalize_clinsig (some "Likely_Pathogenic/other") true = some "Pathogenic" ∧
    normalize_clinsig (some "Uncertain significance") true = none ∧
    normalize_clinsig none true = none := by
  refine ⟨fun s => ?_, by decide, by decide, by decide, rfl⟩
  cases s with
  | none => rfl
  | some str => exact scanParts_true_eq_findSome _

/-- A successful per-row outcome of the table pipeline carries one of the
two retained labels. -/
theorem rowOut_sig_mem (h : List String) (cc cp cr ca cg cs : String)
    (chp : Option String) (row : List (Option String)) (r : OutRow)
    (hr : rowOut h cc cp cr ca cg cs chp row = some r) :
    r.clinical_significance = "Pathogenic" ∨
      r.clinical_significance = "Benign" := by
  simp only [rowOut] at hr
  split at hr
  case h_2 => exact absurd hr (by simp)
  case h_1 lbl hn =>
    split at hr
    case isFalse => exact absurd hr (by simp)
    case isTrue hmem =>
      split at hr
      case h_2 => exact absurd hr (by simp)
      case h_1 n hp =>
        cases hr
        simpa using hmem

/-- Every row a record contributes carries one of the two retained labels. -/
theorem processRecord_sig_mem (rec : VcfRecord) (r : OutRow)
    (hr : r ∈ processRecord rec) :
    r.clinical_significance = "Pathogenic" ∨
      r.clinical_significance = "Benign" := by
  simp only [processRecord] at hr
  split at hr
  case h_2 => simp at hr
  case h_1 lbl hn =>
    split at hr
    case isFalse => simp at hr
    case isTrue hmem =>
      rcases List.mem_map.mp hr with ⟨a, _, ha⟩
      subst ha
      simpa using hmem

/-- C1: for every input and every row emitted to the output — by the table
converter or the call-file converter — `clinical_significance` is exactly
"Pathogenic" or exactly "Benign"; no other value and no absent value ever
reaches an emitted row. -/
theorem C1_emitted_significance_binary :
    (∀ (t : Table) (out : List OutRow) (r : OutRow),
        tsv_to_csv t = Except.ok out → r ∈ out →
        r.clinical_significance = "Pathogenic" ∨
          r.clinical_significance = "Benign") ∧
    (∀ (recs : List VcfRecord) (r : OutRow),
        r ∈ vcf_to_csv recs →
        r.clinical_significance = "Pathogenic" ∨
          r.clinical_significance = "Benign") := by
  constructor
  · intro t out r ht hr
    simp only [tsv_to_csv] at ht
    split at ht
    case h_2 => exact absurd ht (by simp)
    case h_1 cc cp cr ca cg cs heq =>
      split at ht
      case isTrue => exact absurd ht (by simp)
      case isFalse =>
        cases ht
        rcases List.mem_filterMap.mp hr with ⟨row, _, hrow⟩
        exact rowOut_sig_mem _ _ _ _ _ _ _ _ _ _ hrow
  · intro recs r hr
    simp only [vcf_to_csv] at hr
    rcases List.mem_flatten.mp hr with ⟨l, hl, hrl⟩
    rcases List.mem_map.mp hl with ⟨rec, _, hrec⟩
    subst hrec
    exact processRecord_sig_mem _ _ hrl

/-- Witness for C1: the theorem applied to a concrete one-row table and to a
concrete one-record call file. -/
theorem C1_emitted_significance_binary_witness :
    ((⟨"1", 12345, "A", "G", "BRCA1", "Pathogenic", "p.Val600Glu"⟩ : OutRow).clinical_significance
          = "Pathogenic" ∨
        (⟨"1", 12345, "A", "G", "BRCA1", "Pathogenic", "p.Val600Glu"⟩ : OutRow).clinical_significance
          = "Benign") ∧
    ((⟨"17", 41196312, "A", "C", "TP53", "Benign", ""⟩ : OutRow).clinical_significance
          = "Pathogenic" ∨
        (⟨"17", 41196312, "A", "C", "TP53", "Benign", ""⟩ : OutRow).clinical_significance
          = "Benign") :=
  ⟨C1_emitted_significance_binary.1
      ⟨["Chromosome", "Start", "ReferenceAllele", "AlternateAllele",
        "GeneSymbol", "ClinicalSignificance", "HGVSp"],
       [[some "1", some "12345", some "A", some "G", some "BRCA1",
         some "Pathogenic", some "p.Val600Glu"]]⟩
      [⟨"1", 12345, "A", "G", "BRCA1", "Pathogenic", "p.Val600Glu"⟩]
      ⟨"1", 12345, "A", "G", "BRCA1", "Pathogenic", "p.Val600Glu"⟩
      (by rfl) (by simp),
   C1_emitted_significance_binary.2
      [⟨"17", 41196312, "A", some ["C", "T"],
        [("CLNSIG", "Benign"), ("GENEINFO", "TP53:7157")]⟩]
      ⟨"17", 41196312, "A", "C", "TP53", "Benign", ""⟩
      (by decide)⟩

/-- The `all(...)` gate fails exactly when one of the six required logical
fields resolves to no column. -/
theorem resolveCols_eq_none_iff (h : List String) :
    resolveCols h = none ↔
      col_chrom h = none ∨ col_pos h = none ∨ col_ref h = none ∨
        col_alt h = none ∨ col_gene h = none ∨ col_sig h = none := by
  unfold resolveCols
  rcases hc : col_chrom h with _ | cc <;>
    rcases hp : col_pos h with _ | cp <;>
      rcases hr : col_ref h with _ | cr <;>
        rcases ha : col_alt h with _ | ca <;>
          rcases hg : col_gene h with _ | cg <;>
            rcases hs : col_sig h with _ | cs <;> simp

/-- C3: the table converter fails with the Missing-Columns error — and so
writes no output file — exactly when one of the six required logical fields
{chrom, pos, ref, alt, gene, sig} has no column among its aliases
(case-insensitively, first present alias wins); the optional hgvs_p field
plays no role in the gate. -/
theorem C3_missing_columns_iff (t : Table) :
    (tsv_to_csv t = Except.error ConvErr.missingColumns ↔
      col_chrom t.header = none ∨ col_pos t.header = none ∨
        col_ref t.header = none ∨ col_alt t.header = none ∨
        col_gene t.header = none ∨ col_sig t.header = none) ∧
    (tsvWrite t = Except.error ConvErr.missingColumns ↔
      col_chrom t.header = none ∨ col_pos t.header = none ∨
        col_ref t.header = none ∨ col_alt t.header = none ∨
        col_gene t.header = none ∨ col_sig t.header = none) := by
  rw [← resolveCols_eq_none_iff]
  rcases hres : resolveCols t.header with _ | ⟨cc, cp, cr, ca, cg, cs⟩
  · simp [tsv_to_csv, tsvWrite, hres, Except.map]
  · simp only [tsv_to_csv, tsvWrite, hres]
    split <;> simp [Except.map]

/-- C4: a call-file record whose significance normalizes to a retained
label contributes one output row per alternate allele, in allele order, all
sharing the record's chromosome, position, reference allele, gene symbol,
label and protein-change text and differing only in `alt`; with no
alternate alleles (an absent or empty ALT list) it contributes zero rows. -/
theorem C4_multiallelic_expansion (r : VcfRecord) (lbl : String)
    (hn : normalize_clinsig (some (sigRaw r.info)) true = some lbl)
    (hq : lbl ∈ (["Pathogenic", "Benign"] : List String)) :
    processRecord r =
      (effAlts r).map (fun a =>
        { chrom := r.chrom, pos := r.pos, ref := r.ref, alt := a
          gene_symbol := geneOf r.info, clinical_significance := lbl
          hgvs_p := hgvsOf r.info }) ∧
    (processRecord r).length = (effAlts r).length ∧
    (r.alt = none ∨ r.alt = some [] → processRecord r = []) ∧
    vcf_to_csv [r] = processRecord r := by
  have hpr : processRecord r =
      (effAlts r).map (fun a =>
        { chrom := r.chrom, pos := r.pos, ref := r.ref, alt := a
          gene_symbol := geneOf r.info, clinical_significance := lbl
          hgvs_p := hgvsOf r.info }) := by
    simp only [processRecord, hn]
    rw [if_pos hq]
  refine ⟨hpr, by rw [hpr]; simp, ?_, by simp [vcf_to_csv]⟩
  intro hc
  rw [hpr]
  rcases hc with hc | hc <;> simp [effAlts, hc]

/-- Witness for C4: a record with three alternate alleles and CLNSIG
Pathogenic yields exactly three rows differing only in `alt`. -/
theorem C4_multiallelic_expansion_witness :
    processRecord
        ⟨"17", 41196312, "A", some ["C", "T", "G"], [("CLNSIG", "Pathogenic")]⟩ =
      [⟨"17", 41196312, "A", "C", "", "Pathogenic", ""⟩,
       ⟨"17", 41196312, "A", "T", "", "Pathogenic", ""⟩,
       ⟨"17", 41196312, "A", "G", "", "Pathogenic", ""⟩] := by
  have h := C4_multiallelic_expansion
    ⟨"17", 41196312, "A", some ["C", "T", "G"], [("CLNSIG", "Pathogenic")]⟩
    "Pathogenic" (by rfl) (by decide)
  rw [h.1]
  rfl

/-- A row whose position cell casts to NA or to the cast error contributes
no output row, whatever its other cells hold. -/
theorem rowOut_eq_none_of_nonval (h : List String) (cc cp cr ca cg cs : String)
    (chp : Option String) (row : List (Option String))
    (hbad : posCastCell (getCell h row cp) = PosCast.na ∨
      posCastCell (getCell h row cp) = PosCast.castError) :
    rowOut h cc cp cr ca cg cs chp row = none := by
  simp only [rowOut]
  rcases hbad with hbad | hbad <;> rw [hbad] <;> split <;>
    first
    | rfl
    | (split <;> rfl)

/-- Counterexample for C5: a table with every column resolved and one
qualifying row whose position cell holds "2.5" — a string that does not
parse as an integer — is NOT silently dropped: the nullable-integer cast
raises TypeError, the whole conversion fails, and the failure is not a
missing-columns one. -/
theorem C5_nonintegral_pos_raises :
    tsv_to_csv ⟨["chrom", "pos", "ref", "alt", "gene", "clinsig"],
                [[some "1", some "2.5", some "A", some "G", some "X",
                  some "Benign"]]⟩ =
      Except.error ConvErr.castTypeError ∧
    ConvErr.castTypeError ≠ ConvErr.missingColumns :=
  ⟨rfl, by decide⟩

/-- C5 (amended): a table row whose resolved position cell fails the
numeric coercion outright (NaN result) is silently dropped — the
conversion with that row equals the conversion without it, other rows
unaffected; but an integral numeric cell such as "12.0" or "1e3" is KEPT
with its integer value, and a non-integral numeric cell such as "2.5" in a
row passing the significance filter aborts the whole conversion with the
Int64-cast TypeError instead of dropping the row. -/
theorem C5_position_cast_behavior (h : List String)
    (cc cp cr ca cg cs : String)
    (hres : resolveCols h = some (cc, cp, cr, ca, cg, cs))
    (pre post : List (List (Option String))) (r : List (Option String)) :
    (posCastCell (getCell h r cp) = PosCast.na →
        tsv_to_csv ⟨h, pre ++ r :: post⟩ = tsv_to_csv ⟨h, pre ++ post⟩) ∧
    (posCastCell (getCell h r cp) = PosCast.castError →
        sigKeep h cs r = true →
        tsv_to_csv ⟨h, pre ++ r :: post⟩ =
          Except.error ConvErr.castTypeError) ∧
    toNumericCast "12.0" = PosCast.val 12 ∧
    toNumericCast "1e3" = PosCast.val 1000 ∧
    toNumericCast "2.5" = PosCast.castError := by
  refine ⟨fun hbad => ?_, fun hcast hkeep => ?_, by decide, by decide,
    by decide⟩
  · have hnone : rowOut h cc cp cr ca cg cs (col_hgvs_p h) r = none :=
      rowOut_eq_none_of_nonval h cc cp cr ca cg cs (col_hgvs_p h) r
        (Or.inl hbad)
    have hce : castErrCell h cp r = false := by
      simp [castErrCell, hbad]
    simp only [tsv_to_csv, hres]
    by_cases hk : sigKeep h cs r = true
    · simp [List.filter_append, List.filter_cons, hk, List.any_append, hce,
        List.filterMap_append, List.filterMap_cons, hnone]
    · simp only [Bool.not_eq_true] at hk
      simp [List.filter_append, List.filter_cons, hk,
        List.filterMap_append, List.filterMap_cons, hnone]
  · simp only [tsv_to_csv, hres]
    have hany :
        (List.filter (sigKeep h cs) (pre ++ r :: post)).any
            (castErrCell h cp) = true := by
      rw [List.any_eq_true]
      refine ⟨r, List.mem_filter.mpr ⟨by simp, hkeep⟩, ?_⟩
      simp [castErrCell, hcast]
    simp only [hany]
    rfl

/-- Witness for C5 (amended): appending a row whose position cell is
"12_345x" (numeric coercion fails, NaN) to a one-row table leaves the
conversion unchanged, and the concrete cast facts hold. -/
theorem C5_position_cast_behavior_witness :
    (posCastCell (getCell ["chrom", "pos", "ref", "alt", "gene", "clinsig"]
          [some "2", some "12_345x", some "C", some "T", some "TP53",
           some "Pathogenic"] "pos") = PosCast.na →
      tsv_to_csv ⟨["chrom", "pos", "ref", "alt", "gene", "clinsig"],
                  [[some "1", some "7", some "A", some "G", some "BRCA2",
                    some "Benign"]] ++
                    [some "2", some "12_345x", some "C", some "T",
                     some "TP53", some "Pathogenic"] :: []⟩ =
        tsv_to_csv ⟨["chrom", "pos", "ref", "alt", "gene", "clinsig"],
                    [[some "1", some "7", some "A", some "G", some "BRCA2",
                      some "Benign"]] ++ []⟩) ∧
    (posCastCell (getCell ["chrom", "pos", "ref", "alt", "gene", "clinsig"]
          [some "2", some "12_345x", some "C", some "T", some "TP53",
           some "Pathogenic"] "pos") = PosCast.castError →
      sigKeep ["chrom", "pos", "ref", "alt", "gene", "clinsig"] "clinsig"
          [some "2", some "12_345x", some "C", some "T", some "TP53",
           some "Pathogenic"] = true →
      tsv_to_csv ⟨["chrom", "pos", "ref", "alt", "gene", "clinsig"],
                  [[some "1", some "7", some "A", some "G", some "BRCA2",
                    some "Benign"]] ++
                    [some "2", some "12_345x", some "C", some "T",
                     some "TP53", some "Pathogenic"] :: []⟩ =
        Except.error ConvErr.castTypeError) ∧
    toNumericCast "12.0" = PosCast.val 12 ∧
    toNumericCast "1e3" = PosCast.val 1000 ∧
    toNumericCast "2.5" = PosCast.castError :=
  C5_position_cast_behavior
    ["chrom", "pos", "ref", "alt", "gene", "clinsig"]
    "chrom" "pos" "ref" "alt" "gene" "clinsig" (by rfl)
    [[some "1", some "7", some "A", some "G", some "BRCA2", some "Benign"]]
    []
    [some "2", some "12_345x", some "C", some "T", some "TP53",
     some "Pathogenic"]

/-- A prefix of the pattern is contained wherever the pattern is. -/
theorem containsSub_of_append (p q l : List Char)
    (h : containsSub (p ++ q) l = true) : containsSub p l = true := by
  induction l with
  | nil =>
    simp only [containsSub, List.isPrefixOf_iff_prefix] at h ⊢
    exact (List.prefix_append p q).trans h
  | cons c rest ih =>
    simp only [containsSub, Bool.or_eq_true, List.isPrefixOf_iff_prefix] at h ⊢
    rcases h with h | h
    · exact Or.inl ((List.prefix_append p q).trans h)
    · exact Or.inr (ih h)

/-- Counterexample for C6: the compound suffix ".txt.gz" contains ".txt",
so the first branch catches it and routes to the TABLE converter, not to
the call-file converter as the claim asserts. -/
theorem C6_txt_gz_routed_to_table :
    mainRoute [".txt", ".gz"] = Except.ok Route.table ∧
    mainRoute [".txt", ".gz"] ≠ Except.ok Route.callFile := by
  refine ⟨rfl, fun h => ?_⟩
  rw [(rfl : mainRoute [".txt", ".gz"] = Except.ok Route.table)] at h
  exact absurd (Except.ok.inj h) (by decide)

/-- C6 (amended): the dispatcher routes solely on the lowered compound
suffix — to the table converter when it contains ".tsv" or ".txt", else to
the call-file converter when it contains ".vcf" or ".gz", else it fails
with the Unsupported-Input-Type error; a ".txt.gz" path is therefore caught
by the FIRST branch and routed to the table converter. -/
theorem C6_dispatch_routing (sfxs : List String) :
    ((strContains (sfxOf sfxs) ".tsv" || strContains (sfxOf sfxs) ".txt") = true →
        mainRoute sfxs = Except.ok Route.table) ∧
    ((strContains (sfxOf sfxs) ".tsv" || strContains (sfxOf sfxs) ".txt") = false →
        (strContains (sfxOf sfxs) ".vcf" || strContains (sfxOf sfxs) ".gz") = true →
        mainRoute sfxs = Except.ok Route.callFile) ∧
    ((strContains (sfxOf sfxs) ".tsv" || strContains (sfxOf sfxs) ".txt") = false →
        (strContains (sfxOf sfxs) ".vcf" || strContains (sfxOf sfxs) ".gz") = false →
        mainRoute sfxs = Except.error ConvErr.unsupportedInput) ∧
    mainRoute [".txt", ".gz"] = Except.ok Route.table := by
  refine ⟨fun h1 => ?_, fun h1 h2 => ?_, fun h1 h2 => ?_, rfl⟩
  · simp only [mainRoute, h1]
    rfl
  · simp only [Bool.or_eq_true] at h2
    simp only [mainRoute, h1]
    rcases h2 with h2 | h2 <;> simp [h2]
  · have hvg : strContains (sfxOf sfxs) ".vcf.gz" = false := by
      rcases hb : strContains (sfxOf sfxs) ".vcf.gz" with _ | _
      · rfl
      · have : strContains (sfxOf sfxs) ".vcf" = true := by
          have hd : (".vcf.gz" : String).data = (".vcf" : String).data ++ (".gz" : String).data := by
            decide
          simpa [strContains, hd] using containsSub_of_append
            (".vcf" : String).data (".gz" : String).data (sfxOf sfxs).data
            (by simpa [strContains, hd] using hb)
        simp only [Bool.or_eq_false_iff] at h2
        rw [h2.1] at this
        cases this
    simp only [Bool.or_eq_false_iff] at h2
    simp [mainRoute, h1, h2.1, h2.2, hvg]

/-- Counterexample for C7: with collapse_likely = false the input
"likely_pathogenic" yields absent — the likely-qualified term is matched in
`KEEP_MAP` but no branch returns it, so it is skipped, and nothing like
"Likely_pathogenic" is ever produced. -/
theorem C7_uncollapsed_likely_absent :
    normalize_clinsig (some "likely_pathogenic") false = none ∧
    normalize_clinsig (some "likely_pathogenic") false ≠ some "Likely_pathogenic" :=
  ⟨rfl, by decide⟩

/-- C7 (amended): with collapse_likely = false, likely-qualified terms hit
the `KEEP_MAP` lookup but neither return branch fires, so the scan skips
them and continues with the remaining terms; only the plain terms
pathogenic/benign return, in capitalized form, and an input whose only
matching terms are likely-qualified yields absent. -/
theorem C7_uncollapsed_likely_skipped :
    (∀ rest : List (List Char),
        scanParts false ("likely_pathogenic".data :: rest) = scanParts false rest) ∧
    (∀ rest : List (List Char),
        scanParts false ("likely_benign".data :: rest) = scanParts false rest) ∧
    scanParts false ["pathogenic".data] = some "Pathogenic" ∧
    scanParts false ["benign".data] = some "Benign" ∧
    normalize_clinsig (some "likely_pathogenic/benign") false = some "Benign" ∧
    normalize_clinsig (some "likely_pathogenic") false = none :=
  ⟨fun _ => rfl, fun _ => rfl, rfl, rfl, rfl, rfl⟩

/-- C8: when a conversion yields zero qualifying rows, the table converter
still writes a file containing exactly the header row, while the call-file
converter writes no file at all; neither raises an error. -/
theorem C8_empty_result_asymmetry (t : Table) (recs : List VcfRecord)
    (h1 : tsv_to_csv t = Except.ok []) (h2 : vcf_to_csv recs = []) :
    tsvWrite t = Except.ok [csvHeader] ∧ vcfWrite recs = none := by
  constructor
  · simp only [tsvWrite, h1]
    rfl
  · simp [vcfWrite, h2]

/-- Witness for C8: a table whose only row has significance "Uncertain
significance" gives a header-only file, and an empty record list gives no
call-file output. -/
theorem C8_empty_result_asymmetry_witness :
    tsvWrite ⟨["chrom", "pos", "ref", "alt", "gene", "clinsig"],
              [[some "1", some "5", some "A", some "G", some "X",
                some "Uncertain significance"]]⟩ = Except.ok [csvHeader] ∧
    vcfWrite [] = none :=
  C8_empty_result_asymmetry
    ⟨["chrom", "pos", "ref", "alt", "gene", "clinsig"],
     [[some "1", some "5", some "A", some "G", some "X",
       some "Uncertain significance"]]⟩ [] (by rfl) (by rfl)

/-- A successful per-row outcome of the table pipeline is exactly a
qualifying normalized label together with a successful position parse, the
remaining fields being the string conversion of their cells. -/
theorem rowOut_eq_some_iff (h : List String) (cc cp cr ca cg cs : String)
    (chp : Option String) (row : List (Option String)) (r : OutRow) :
    rowOut h cc cp cr ca cg cs chp row = some r ↔
      ∃ lbl n, normalize_clinsig (getCell h row cs) true = some lbl ∧
        lbl ∈ (["Pathogenic", "Benign"] : List String) ∧
        posCastCell (getCell h row cp) = PosCast.val n ∧
        r = { chrom := astype_str (getCell h row cc)
              pos := n
              ref := astype_str (getCell h row cr)
              alt := astype_str (getCell h row ca)
              gene_symbol := astype_str (getCell h row cg)
              clinical_significance := lbl
              hgvs_p :=
                match chp with
                | some ch => astype_str (getCell h row ch)
                | none => "" } := by
  constructor
  · intro hr
    simp only [rowOut] at hr
    split at hr
    case h_2 => exact absurd hr (by simp)
    case h_1 lbl hn =>
      split at hr
      case isFalse => exact absurd hr (by simp)
      case isTrue hmem =>
        split at hr
        case h_2 => exact absurd hr (by simp)
        case h_1 n hp =>
          cases hr
          exact ⟨lbl, n, hn, hmem, hp, rfl⟩
  · rintro ⟨lbl, n, hn, hmem, hp, hr⟩
    subst hr
    simp only [rowOut, hn, hp]
    rw [if_pos hmem]

/-- Counterexample for C9: a table row whose gene cell is missing (NaN) is
emitted with gene_symbol equal to the string "nan" — the pandas
`astype(str)` rendering — not the empty string the claim requires. -/
theorem C9_missing_gene_cell_gives_nan :
    tsv_to_csv ⟨["chrom", "pos", "ref", "alt", "gene", "clinsig"],
                [[some "1", some "5", some "A", some "G", none, some "Benign"]]⟩ =
      Except.ok [⟨"1", 5, "A", "G", "nan", "Benign", ""⟩] ∧
    ("nan" : String) ≠ "" :=
  ⟨rfl, by decide⟩

/-- C9 (amended): the hgvs_p output field is the empty string whenever its
column was not resolved, and in the call-file path an absent GENEINFO
annotation or absent HGVS-family annotations give the empty string; but in
the table path a missing cell of a RESOLVED column is rendered as the
string "nan" by the string conversion, not as the empty string. -/
theorem C9_absent_field_rendering (h : List String)
    (cc cp cr ca cg cs : String) (row : List (Option String)) (r : OutRow) :
    (rowOut h cc cp cr ca cg cs none row = some r → r.hgvs_p = "") ∧
    (rowOut h cc cp cr ca cg cs none row = some r →
        getCell h row cg = none → r.gene_symbol = "nan") ∧
    (∀ info : List (String × String),
        info.lookup "GENEINFO" = none → geneOf info = "") ∧
    (∀ info : List (String × String),
        info.lookup "HGVSP" = none → info.lookup "HGVSp" = none →
          info.lookup "HGVS_P" = none → info.lookup "HGVS" = none →
          hgvsOf info = "") := by
  refine ⟨fun hr => ?_, fun hr hg => ?_, fun info hgi => ?_,
    fun info k1 k2 k3 k4 => ?_⟩
  · rcases (rowOut_eq_some_iff h cc cp cr ca cg cs none row r).mp hr with
      ⟨lbl, n, _, _, _, hr'⟩
    subst hr'
    rfl
  · rcases (rowOut_eq_some_iff h cc cp cr ca cg cs none row r).mp hr with
      ⟨lbl, n, _, _, _, hr'⟩
    subst hr'
    simp [astype_str, hg]
  · simp [geneOf, hgi, truthy]
  · simp [hgvsOf, hgvsScan, k1, k2, k3, k4]

/-- Witness for C9 (amended): a concrete row with an unresolved hgvs_p
column and a missing gene cell, and a concrete empty INFO mapping. -/
theorem C9_absent_field_rendering_witness :
    (rowOut ["chrom", "pos", "ref", "alt", "gene", "clinsig"]
          "chrom" "pos" "ref" "alt" "gene" "clinsig" none
          [some "1", some "5", some "A", some "G", none, some "Benign"] =
        some ⟨"1", 5, "A", "G", "nan", "Benign", ""⟩ →
      (⟨"1", 5, "A", "G", "nan", "Benign", ""⟩ : OutRow).hgvs_p = "") ∧
    (rowOut ["chrom", "pos", "ref", "alt", "gene", "clinsig"]
          "chrom" "pos" "ref" "alt" "gene" "clinsig" none
          [some "1", some "5", some "A", some "G", none, some "Benign"] =
        some ⟨"1", 5, "A", "G", "nan", "Benign", ""⟩ →
      getCell ["chrom", "pos", "ref", "alt", "gene", "clinsig"]
          [some "1", some "5", some "A", some "G", none, some "Benign"] "gene" = none →
      (⟨"1", 5, "A", "G", "nan", "Benign", ""⟩ : OutRow).gene_symbol = "nan") ∧
    (∀ info : List (String × String),
        info.lookup "GENEINFO" = none → geneOf info = "") ∧
    (∀ info : List (String × String),
        info.lookup "HGVSP" = none → info.lookup "HGVSp" = none →
          info.lookup "HGVS_P" = none → info.lookup "HGVS" = none →
          hgvsOf info = "") :=
  C9_absent_field_rendering ["chrom", "pos", "ref", "alt", "gene", "clinsig"]
    "chrom" "pos" "ref" "alt" "gene" "clinsig"
    [some "1", some "5", some "A", some "G", none, some "Benign"]
    ⟨"1", 5, "A", "G", "nan", "Benign", ""⟩

/-- Counterexample for C10: a table row whose position cell reads "-5" is
emitted with pos = -5, a negative integer, contradicting the claim that
such a row is never emitted with that value. -/
theorem C10_negative_pos_emitted :
    tsv_to_csv ⟨["chrom", "pos", "ref", "alt", "gene", "clinsig"],
                [[some "1", some "-5", some "A", some "G", some "BRCA1",
                  some "Benign"]]⟩ =
      Except.ok [⟨"1", -5, "A", "G", "BRCA1", "Benign", ""⟩] ∧
    (⟨"1", -5, "A", "G", "BRCA1", "Benign", ""⟩ : OutRow).pos < 0 :=
  ⟨rfl, by decide⟩

/-- C10 (amended): every emitted row's pos is the exact integer the
position cast succeeded with (table path) or the record's POS passed
through (call-file path); a cell whose coercion fails is excluded rather
than emitted with a placeholder, a non-integral numeric cell aborts the
conversion, and no sign check is performed — a negative cast value passes
through. -/
theorem C10_pos_always_cast :
    (∀ (h : List String) (cc cp cr ca cg cs : String) (chp : Option String)
        (row : List (Option String)) (r : OutRow),
        rowOut h cc cp cr ca cg cs chp row = some r →
        posCastCell (getCell h row cp) = PosCast.val r.pos) ∧
    (∀ (rec : VcfRecord) (r : OutRow), r ∈ processRecord rec →
        r.pos = rec.pos) := by
  constructor
  · intro h cc cp cr ca cg cs chp row r hr
    rcases (rowOut_eq_some_iff h cc cp cr ca cg cs chp row r).mp hr with
      ⟨lbl, n, _, _, hp, hr'⟩
    subst hr'
    exact hp
  · intro rec r hr
    simp only [processRecord] at hr
    split at hr
    case h_2 => exact absurd hr (by simp)
    case h_1 lbl hn =>
      split at hr
      case isFalse => exact absurd hr (by simp)
      case isTrue hmem =>
        rcases List.mem_map.mp hr with ⟨a, _, ha⟩
        subst ha
        rfl

end ClinvarToCsv
